import Mathlib

/-!
# Order service bootstrap (`services/order-service/main.go`)

A shallow embedding of `main` and of the heartbeat goroutine it spawns.

`main` is straight-line Go code whose only branching is on the error result of
its collaborator calls, so a run of `main` is determined by the outcome of each
of those calls.  The embedding takes these outcomes as input (`Outcomes`) and
produces the observable run: the ordered trace of collaborator calls, log
entries and executed deferred calls, together with the way the process ends.

Go semantics used by the embedding:

* `defer f(..)` pushes the call on the frame's stack of deferred calls; the
  stack is run last-in first-out when the function returns or panics, and the
  value a deferred call returns is discarded;
* `panic(err)` runs the deferred calls and then crashes the process;
* `zap.L().Fatal(..)` writes the entry and calls `os.Exit(1)`; `os.Exit` ends
  the process at once and deferred calls are not run;
* `zap.L().Error(..)` and `zap.L().Info(..)` write the entry and return;
* `go func() {..}()` starts the goroutine and returns at once.

The interleaving of the heartbeat goroutine with the main line is not part of
the model: the goroutine is described by its own trace.
-/

namespace OrderService

/-! ## Data model -/

/-- Severity of a zap log entry. -/
inductive Severity
  | info
  | error
  | fatal
  deriving DecidableEq, Repr

/-- The collaborator calls made by the body of `main`, one constructor per call
site, named after the callee. -/
inductive Step
  | readConfig          -- line 31: config.ReadConfig[orderConfig.AppConfig]()
  | logInit             -- line 32: log.Init("[ORDER-SERVICE]")
  | setGlobalTracer     -- line 35: tracer.SetGlobalTracer(..)
  | newRegistry         -- line 42: consul.NewRegistry(..)
  | generateInstanceID  -- line 48: discovery.GenerateInstanceID(..)
  | register            -- line 49: registry.Register(..)
  | goHeartbeat         -- line 55: go func() { .. }()
  | grpcNewServer       -- line 64: grpc.NewServer(..)
  | netListen           -- line 72: net.Listen("tcp", grpcAddr)
  | newRabbitMQ         -- line 77: rabbitmq.NewRabbitMQ(..)
  | rmqBuild            -- line 82: rmq.Build(..)
  | newOrderService     -- line 88: service.NewOrderService(..)
  | newGrpcHandler      -- line 90: app.NewGrpcHandler(..)
  | serve               -- line 94: grpcServer.Serve(listener)
  deriving DecidableEq, Repr

/-- The calls `main` defers. -/
inductive Release
  | zapSync        -- line 33: defer zap.L().Sync()
  | deregister     -- line 53: defer registry.Deregister(ctx, instanceID, serviceName)
  | listenerClose  -- line 92: defer listener.Close()
  deriving DecidableEq, Repr

/-- One observable event of the main line.  `ok` is `true` when the call
returned a nil error (calls without an error result always carry `true`). -/
inductive Event
  | call (s : Step) (ok : Bool)
  | log (sev : Severity) (msg : String)
  | release (r : Release) (ok : Bool)
  deriving DecidableEq, Repr

/-- How the process ends, seen from `main`. -/
inductive Exit
  | returned  -- main returned normally
  | panicked  -- panic(err): deferred calls ran, then the process crashed
  | osExit    -- zap Fatal: os.Exit(1), deferred calls skipped
  deriving DecidableEq, Repr

/-- The outcome of every call whose error result exists: `true` is a nil
error.  The first seven are the results `main` branches on; the last three are
the results of the deferred calls, which `main` discards. -/
structure Outcomes where
  tracerOk : Bool
  registryOk : Bool
  registerOk : Bool
  listenOk : Bool
  rabbitOk : Bool
  buildOk : Bool
  serveOk : Bool
  deregisterOk : Bool
  closeOk : Bool
  syncOk : Bool
  deriving DecidableEq, Repr

/-- The result of the deferred call `r`. -/
def Outcomes.releaseOk (o : Outcomes) : Release → Bool
  | .zapSync => o.syncOk
  | .deregister => o.deregisterOk
  | .listenerClose => o.closeOk

/-- The activation of `main`: what has been observed so far, and the stack
of deferred calls (most recently deferred first). -/
structure Frame where
  trace : List Event
  deferred : List Release
  deriving DecidableEq, Repr

/-- A finished run of `main`. -/
structure Run where
  trace : List Event
  exit : Exit
  deriving DecidableEq, Repr

/-! ## Go statements -/

/-- The frame on entry to `main`. -/
def Frame.entry : Frame := ⟨[], []⟩

/-- A collaborator call that returned. -/
def Frame.call (f : Frame) (s : Step) (ok : Bool) : Frame :=
  { f with trace := f.trace ++ [Event.call s ok] }

/-- A log call below fatal severity: the entry is written, control returns. -/
def Frame.log (f : Frame) (sev : Severity) (msg : String) : Frame :=
  { f with trace := f.trace ++ [Event.log sev msg] }

/-- A `defer` statement: the call is pushed, nothing is executed. -/
def Frame.defer (f : Frame) (r : Release) : Frame :=
  { f with deferred := r :: f.deferred }

/-- Running a stack of deferred calls, top first.  Each call is executed and
its result discarded, whatever it is. -/
def runDeferred (o : Outcomes) : List Release → List Event
  | [] => []
  | r :: rest => Event.release r (o.releaseOk r) :: runDeferred o rest

/-- Normal return of `main`: the deferred calls run. -/
def Frame.ret (f : Frame) (o : Outcomes) : Run :=
  ⟨f.trace ++ runDeferred o f.deferred, Exit.returned⟩

/-- Go `panic(err)`: the deferred calls run, then the process crashes. -/
def Frame.panic (f : Frame) (o : Outcomes) : Run :=
  ⟨f.trace ++ runDeferred o f.deferred, Exit.panicked⟩

/-- The call `zap.L().Fatal(msg, ..)`: the entry is written and the process
exits through `os.Exit(1)`; the deferred calls are not run. -/
def Frame.fatal (f : Frame) (msg : String) : Run :=
  ⟨f.trace ++ [Event.log Severity.fatal msg], Exit.osExit⟩

/-! ## `main` -/

/-- The function `main` (lines 30-98), statement by statement. -/
def main (o : Outcomes) : Run :=
  let f := Frame.entry
  let f := f.call Step.readConfig true
  let f := f.call Step.logInit true
  let f := f.defer Release.zapSync
  let f := f.call Step.setGlobalTracer o.tracerOk
  if !o.tracerOk then f.fatal "failed to set global tracer" else
  let f := f.log Severity.info "app starting..."
  let f := f.call Step.newRegistry o.registryOk
  if !o.registryOk then f.panic o else
  let f := f.call Step.generateInstanceID true
  let f := f.call Step.register o.registerOk
  if !o.registerOk then f.panic o else
  let f := f.defer Release.deregister
  let f := f.call Step.goHeartbeat true
  let f := f.call Step.grpcNewServer true
  let f := f.call Step.netListen o.listenOk
  if !o.listenOk then f.fatal "Failed to create TCP listener: " else
  let f := f.call Step.newRabbitMQ o.rabbitOk
  if !o.rabbitOk then f.fatal "Failed to create RabbitMQ instance: " else
  let f := f.call Step.rmqBuild o.buildOk
  let f := if !o.buildOk then f.log Severity.error "Failed to build queue/exchange" else f
  let f := f.log Severity.info "gRPC server listening on port: "
  let f := f.call Step.newOrderService true
  let f := f.call Step.newGrpcHandler true
  let f := f.defer Release.listenerClose
  let f := f.call Step.serve o.serveOk
  if !o.serveOk then f.fatal "Failed to serve gRPC server: " else
  f.ret o

/-! ## The heartbeat goroutine (lines 55-62) -/

/-- One observable event of the heartbeat goroutine. -/
inductive HbEvent
  | healthCheck (ok : Bool)
  | log (sev : Severity) (msg : String)
  | sleep (ns : Nat)
  deriving DecidableEq, Repr

/-- Go `time.Second`, a `time.Duration` counted in nanoseconds. -/
def timeSecond : Nat := 1000000000

/-- Whether a log call at this severity ends the process (zap: only Fatal). -/
def Severity.exits : Severity → Bool
  | .fatal => true
  | _ => false

/-- The goroutine: what it has done so far and whether it is still executing.
The loop `for { .. }` has no condition, `break` or `return`; the only way the
goroutine could stop by its own doing is a statement that ends the process. -/
structure Goroutine where
  trace : List HbEvent
  running : Bool
  deriving DecidableEq, Repr

/-- The goroutine when it is started. -/
def Goroutine.start : Goroutine := ⟨[], true⟩

/-- The call `registry.HealthCheck(instanceID, serviceName)`. -/
def Goroutine.healthCheck (g : Goroutine) (ok : Bool) : Goroutine :=
  { g with trace := g.trace ++ [HbEvent.healthCheck ok] }

/-- A zap log call made from the goroutine. -/
def Goroutine.log (g : Goroutine) (sev : Severity) (msg : String) : Goroutine :=
  { trace := g.trace ++ [HbEvent.log sev msg], running := g.running && !sev.exits }

/-- The call `time.Sleep(d)`. -/
def Goroutine.sleep (g : Goroutine) (d : Nat) : Goroutine :=
  { g with trace := g.trace ++ [HbEvent.sleep d] }

/-- The body of the `for` loop (lines 57-60), run with the given result of
`HealthCheck`. -/
def heartbeatBody (ok : Bool) (g : Goroutine) : Goroutine :=
  let g := g.healthCheck ok
  let g := if !ok then g.log Severity.error "Failed to health check" else g
  g.sleep (timeSecond * 1)

/-- The loop `for { .. }` run for as many cycles as there are `HealthCheck`
results: the next cycle starts whenever the goroutine is still executing. -/
def heartbeatLoop : List Bool → Goroutine → Goroutine
  | [], g => g
  | ok :: rest, g => if g.running then heartbeatLoop rest (heartbeatBody ok g) else g

/-- The whole process: the run of the main line, and the trace of the heartbeat
goroutine. -/
structure Process where
  mainRun : Run
  heartbeat : List HbEvent
  deriving DecidableEq, Repr

/-- A run of the process.  `hb` lists the results of the `HealthCheck` calls
the heartbeat goroutine gets to make while the process lives; the goroutine
exists only if `main` executed the `go` statement. -/
def runProcess (o : Outcomes) (hb : List Bool) : Process :=
  let r := main o
  { mainRun := r
    heartbeat :=
      if Event.call Step.goHeartbeat true ∈ r.trace then
        (heartbeatLoop hb Goroutine.start).trace
      else [] }

/-! ## Observations on traces -/

/-- The collaborator calls of a trace, in order. -/
def stepsOf : List Event → List Step
  | [] => []
  | Event.call s _ :: t => s :: stepsOf t
  | _ :: t => stepsOf t

/-- The deferred calls executed in a trace, in order. -/
def releasesOf : List Event → List Release
  | [] => []
  | Event.release r _ :: t => r :: releasesOf t
  | _ :: t => releasesOf t

/-- The log entries of a trace, in order. -/
def logsOf : List Event → List (Severity × String)
  | [] => []
  | Event.log sev msg :: t => (sev, msg) :: logsOf t
  | _ :: t => logsOf t

/-- Whether the event is an executed deferred call. -/
def Event.isRelease : Event → Bool
  | .release _ _ => true
  | _ => false

/-- The teardown part of a trace: everything from the first executed deferred
call on. -/
def teardownOf (t : List Event) : List Event :=
  t.dropWhile (fun e => !e.isRelease)

/-- Number of `HealthCheck` calls in a heartbeat trace. -/
def healthCheckCalls : List HbEvent → Nat
  | [] => 0
  | HbEvent.healthCheck _ :: t => healthCheckCalls t + 1
  | _ :: t => healthCheckCalls t

/-- The durations passed to `time.Sleep` in a heartbeat trace, in order. -/
def sleepsOf : List HbEvent → List Nat
  | [] => []
  | HbEvent.sleep d :: t => d :: sleepsOf t
  | _ :: t => sleepsOf t

/-- The log entries of a heartbeat trace, in order. -/
def hbLogsOf : List HbEvent → List (Severity × String)
  | [] => []
  | HbEvent.log sev msg :: t => (sev, msg) :: hbLogsOf t
  | _ :: t => hbLogsOf t

/-- The order of the call sites in the body of `main`. -/
def bootOrder : List Step :=
  [Step.readConfig, Step.logInit, Step.setGlobalTracer, Step.newRegistry,
   Step.generateInstanceID, Step.register, Step.goHeartbeat, Step.grpcNewServer,
   Step.netListen, Step.newRabbitMQ, Step.rmqBuild, Step.newOrderService,
   Step.newGrpcHandler, Step.serve]

/-- The resources of the bootstrap ledger, as the specification names them:
what `log.Init`, `tracer.SetGlobalTracer`, `registry.Register`, `net.Listen`
and `rabbitmq.NewRabbitMQ` hand to `main`. -/
inductive Resource
  | logger
  | tracerProvider
  | registration
  | listener
  | brokerClient
  deriving DecidableEq, Repr

/-- The resource a call acquires when it succeeds, if any. -/
def Step.acquires : Step → Option Resource
  | .logInit => some Resource.logger
  | .setGlobalTracer => some Resource.tracerProvider
  | .register => some Resource.registration
  | .netListen => some Resource.listener
  | .newRabbitMQ => some Resource.brokerClient
  | _ => none

/-- The resource a deferred call releases. -/
def Release.resource : Release → Resource
  | .zapSync => Resource.logger
  | .deregister => Resource.registration
  | .listenerClose => Resource.listener

/-- Whether `main` contains a `defer` (or any other call) releasing the
resource. -/
def Resource.hasRelease : Resource → Bool
  | .logger => true
  | .registration => true
  | .listener => true
  | .tracerProvider => false
  | .brokerClient => false

/-- The resources acquired in a trace, in order of acquisition. -/
def acquiredOf : List Event → List Resource
  | [] => []
  | Event.call s true :: t =>
    match s.acquires with
    | some r => r :: acquiredOf t
    | none => acquiredOf t
  | _ :: t => acquiredOf t

/-- The resources released in a trace, in order of release. -/
def releasedOf (t : List Event) : List Resource :=
  (releasesOf t).map Release.resource

/-- Every call succeeds. -/
def allOk : Outcomes :=
  ⟨true, true, true, true, true, true, true, true, true, true⟩

/-- Registration fails, everything before it succeeds. -/
def registerFails : Outcomes := { allOk with registerOk := false }

/-- The listener bind fails, everything before it succeeds. -/
def listenFails : Outcomes := { allOk with listenOk := false }

/-- Broker-client construction fails, everything before it succeeds. -/
def rabbitFails : Outcomes := { allOk with rabbitOk := false }

/-- Topology provisioning fails, every other call succeeds. -/
def buildFails : Outcomes := { allOk with buildOk := false }

/-- Every call of the main line succeeds and `listener.Close` returns an error
during teardown. -/
def closeFails : Outcomes := { allOk with closeOk := false }

/-! ## The paths through `main` -/

/-- The body of `main` with every statement of the embedding evaluated: one
explicit run per exit point. -/
theorem main_eq (o : Outcomes) :
    main o =
      if !o.tracerOk then
        ⟨[Event.call Step.readConfig true, Event.call Step.logInit true,
          Event.call Step.setGlobalTracer false,
          Event.log Severity.fatal "failed to set global tracer"], Exit.osExit⟩
      else if !o.registryOk then
        ⟨[Event.call Step.readConfig true, Event.call Step.logInit true,
          Event.call Step.setGlobalTracer true, Event.log Severity.info "app starting...",
          Event.call Step.newRegistry false,
          Event.release Release.zapSync o.syncOk], Exit.panicked⟩
      else if !o.registerOk then
        ⟨[Event.call Step.readConfig true, Event.call Step.logInit true,
          Event.call Step.setGlobalTracer true, Event.log Severity.info "app starting...",
          Event.call Step.newRegistry true, Event.call Step.generateInstanceID true,
          Event.call Step.register false,
          Event.release Release.zapSync o.syncOk], Exit.panicked⟩
      else if !o.listenOk then
        ⟨[Event.call Step.readConfig true, Event.call Step.logInit true,
          Event.call Step.setGlobalTracer true, Event.log Severity.info "app starting...",
          Event.call Step.newRegistry true, Event.call Step.generateInstanceID true,
          Event.call Step.register true, Event.call Step.goHeartbeat true,
          Event.call Step.grpcNewServer true, Event.call Step.netListen false,
          Event.log Severity.fatal "Failed to create TCP listener: "], Exit.osExit⟩
      else if !o.rabbitOk then
        ⟨[Event.call Step.readConfig true, Event.call Step.logInit true,
          Event.call Step.setGlobalTracer true, Event.log Severity.info "app starting...",
          Event.call Step.newRegistry true, Event.call Step.generateInstanceID true,
          Event.call Step.register true, Event.call Step.goHeartbeat true,
          Event.call Step.grpcNewServer true, Event.call Step.netListen true,
          Event.call Step.newRabbitMQ false,
          Event.log Severity.fatal "Failed to create RabbitMQ instance: "], Exit.osExit⟩
      else
        ⟨[Event.call Step.readConfig true, Event.call Step.logInit true,
          Event.call Step.setGlobalTracer true, Event.log Severity.info "app starting...",
          Event.call Step.newRegistry true, Event.call Step.generateInstanceID true,
          Event.call Step.register true, Event.call Step.goHeartbeat true,
          Event.call Step.grpcNewServer true, Event.call Step.netListen true,
          Event.call Step.newRabbitMQ true, Event.call Step.rmqBuild o.buildOk] ++
         (if !o.buildOk then [Event.log Severity.error "Failed to build queue/exchange"]
          else []) ++
         [Event.log Severity.info "gRPC server listening on port: ",
          Event.call Step.newOrderService true, Event.call Step.newGrpcHandler true,
          Event.call Step.serve o.serveOk] ++
         (if !o.serveOk then [Event.log Severity.fatal "Failed to serve gRPC server: "]
          else [Event.release Release.listenerClose o.closeOk,
                Event.release Release.deregister o.deregisterOk,
                Event.release Release.zapSync o.syncOk]),
         if !o.serveOk then Exit.osExit else Exit.returned⟩ := by
  rcases o with ⟨a, b, c, d, e, f, g, x, y, z⟩
  cases a <;> cases b <;> cases c <;> cases d <;> cases e <;> cases f <;> cases g <;>
    simp [main, Frame.entry, Frame.call, Frame.log, Frame.defer, Frame.fatal, Frame.ret,
      Frame.panic, runDeferred, Outcomes.releaseOk]

/-- The run in which `tracer.SetGlobalTracer` returns an error. -/
theorem main_of_tracer_failure (o : Outcomes)
    (h : Event.call Step.setGlobalTracer false ∈ (main o).trace) :
    main o =
      ⟨[Event.call Step.readConfig true, Event.call Step.logInit true,
        Event.call Step.setGlobalTracer false,
        Event.log Severity.fatal "failed to set global tracer"], Exit.osExit⟩ := by
  rw [main_eq] at h ⊢
  split_ifs at h ⊢ <;> simp at h ⊢

/-- The run in which `consul.NewRegistry` returns an error. -/
theorem main_of_registry_failure (o : Outcomes)
    (h : Event.call Step.newRegistry false ∈ (main o).trace) :
    main o =
      ⟨[Event.call Step.readConfig true, Event.call Step.logInit true,
        Event.call Step.setGlobalTracer true, Event.log Severity.info "app starting...",
        Event.call Step.newRegistry false,
        Event.release Release.zapSync o.syncOk], Exit.panicked⟩ := by
  rw [main_eq] at h ⊢
  split_ifs at h ⊢ <;> simp at h ⊢

/-- The run in which `registry.Register` returns an error. -/
theorem main_of_register_failure (o : Outcomes)
    (h : Event.call Step.register false ∈ (main o).trace) :
    main o =
      ⟨[Event.call Step.readConfig true, Event.call Step.logInit true,
        Event.call Step.setGlobalTracer true, Event.log Severity.info "app starting...",
        Event.call Step.newRegistry true, Event.call Step.generateInstanceID true,
        Event.call Step.register false,
        Event.release Release.zapSync o.syncOk], Exit.panicked⟩ := by
  rw [main_eq] at h ⊢
  split_ifs at h ⊢ <;> simp at h ⊢

/-- The run in which `net.Listen` returns an error. -/
theorem main_of_listen_failure (o : Outcomes)
    (h : Event.call Step.netListen false ∈ (main o).trace) :
    main o =
      ⟨[Event.call Step.readConfig true, Event.call Step.logInit true,
        Event.call Step.setGlobalTracer true, Event.log Severity.info "app starting...",
        Event.call Step.newRegistry true, Event.call Step.generateInstanceID true,
        Event.call Step.register true, Event.call Step.goHeartbeat true,
        Event.call Step.grpcNewServer true, Event.call Step.netListen false,
        Event.log Severity.fatal "Failed to create TCP listener: "], Exit.osExit⟩ := by
  rw [main_eq] at h ⊢
  split_ifs at h ⊢ <;> simp at h ⊢

/-- The run in which `rabbitmq.NewRabbitMQ` returns an error. -/
theorem main_of_rabbit_failure (o : Outcomes)
    (h : Event.call Step.newRabbitMQ false ∈ (main o).trace) :
    main o =
      ⟨[Event.call Step.readConfig true, Event.call Step.logInit true,
        Event.call Step.setGlobalTracer true, Event.log Severity.info "app starting...",
        Event.call Step.newRegistry true, Event.call Step.generateInstanceID true,
        Event.call Step.register true, Event.call Step.goHeartbeat true,
        Event.call Step.grpcNewServer true, Event.call Step.netListen true,
        Event.call Step.newRabbitMQ false,
        Event.log Severity.fatal "Failed to create RabbitMQ instance: "], Exit.osExit⟩ := by
  rw [main_eq] at h ⊢
  split_ifs at h ⊢ <;> simp at h ⊢

/-- The run in which `grpcServer.Serve` returns without error. -/
theorem main_of_serve_return (o : Outcomes)
    (h : Event.call Step.serve true ∈ (main o).trace) :
    main o =
      ⟨[Event.call Step.readConfig true, Event.call Step.logInit true,
        Event.call Step.setGlobalTracer true, Event.log Severity.info "app starting...",
        Event.call Step.newRegistry true, Event.call Step.generateInstanceID true,
        Event.call Step.register true, Event.call Step.goHeartbeat true,
        Event.call Step.grpcNewServer true, Event.call Step.netListen true,
        Event.call Step.newRabbitMQ true, Event.call Step.rmqBuild o.buildOk] ++
       (if !o.buildOk then [Event.log Severity.error "Failed to build queue/exchange"]
        else []) ++
       [Event.log Severity.info "gRPC server listening on port: ",
        Event.call Step.newOrderService true, Event.call Step.newGrpcHandler true,
        Event.call Step.serve true,
        Event.release Release.listenerClose o.closeOk,
        Event.release Release.deregister o.deregisterOk,
        Event.release Release.zapSync o.syncOk], Exit.returned⟩ := by
  rw [main_eq] at h ⊢
  split_ifs at h ⊢ <;> simp_all

/-- A run returns normally exactly when `grpcServer.Serve` was called and
returned without error. -/
theorem returned_iff_serve_ok (o : Outcomes) :
    (main o).exit = Exit.returned ↔ Event.call Step.serve true ∈ (main o).trace := by
  rw [main_eq]
  split_ifs <;> simp_all

/-! ## Registration failure -/

/-- C1: in every run in which `registry.Register` returns an error the
process ends at that call (by panic): the calls made are exactly those up to
`Register`, the heartbeat goroutine is never started, no `HealthCheck` call is
made, and neither `net.Listen` nor `grpcServer.Serve` is called. -/
theorem register_failure_stops_bootstrap (o : Outcomes) (hb : List Bool)
    (h : Event.call Step.register false ∈ (main o).trace) :
    (main o).exit = Exit.panicked ∧
    stepsOf (main o).trace =
      [Step.readConfig, Step.logInit, Step.setGlobalTracer, Step.newRegistry,
       Step.generateInstanceID, Step.register] ∧
    Step.goHeartbeat ∉ stepsOf (main o).trace ∧
    (runProcess o hb).heartbeat = [] ∧
    healthCheckCalls (runProcess o hb).heartbeat = 0 ∧
    Step.netListen ∉ stepsOf (main o).trace ∧
    Step.serve ∉ stepsOf (main o).trace := by
  unfold runProcess
  rw [main_of_register_failure o h]
  simp [stepsOf, healthCheckCalls]

/-- Instance of C1 at the run in which only registration fails. -/
theorem register_failure_stops_bootstrap_witness :
    Event.call Step.register false ∈ (main registerFails).trace ∧
    healthCheckCalls (runProcess registerFails [true, false]).heartbeat = 0 ∧
    Step.netListen ∉ stepsOf (main registerFails).trace :=
  ⟨by decide,
   (register_failure_stops_bootstrap registerFails [true, false] (by decide)).2.2.2.2.1,
   (register_failure_stops_bootstrap registerFails [true, false] (by decide)).2.2.2.2.2.1⟩

/-! ## Listener bind failure -/

/-- C2: evaluation of `main` when `net.Listen` fails after a successful
registration: the run ends in `os.Exit` through `zap.L().Fatal`, and no deferred
call is executed, in particular not `registry.Deregister`. -/
theorem listen_failure_skips_deregister :
    Event.call Step.register true ∈ (main listenFails).trace ∧
    Event.call Step.netListen false ∈ (main listenFails).trace ∧
    (main listenFails).exit = Exit.osExit ∧
    Release.deregister ∉ releasesOf (main listenFails).trace ∧
    releasesOf (main listenFails).trace = [] := by
  decide

/-! ## Broker provisioning failure -/

/-- C3: when every call before it succeeds and `rmq.Build` returns an error,
the error is logged at error severity right after the call, the run goes on
with the remaining calls and `grpcServer.Serve` is called: the trace up to the
`Serve` call is the one written out, and every call site of `main` is
executed. -/
theorem build_failure_is_not_fatal (o : Outcomes)
    (h1 : o.tracerOk = true) (h2 : o.registryOk = true) (h3 : o.registerOk = true)
    (h4 : o.listenOk = true) (h5 : o.rabbitOk = true) (h6 : o.buildOk = false) :
    Event.log Severity.error "Failed to build queue/exchange" ∈ (main o).trace ∧
    Event.call Step.serve o.serveOk ∈ (main o).trace ∧
    stepsOf (main o).trace = bootOrder ∧
    ∃ rest, (main o).trace =
      [Event.call Step.readConfig true, Event.call Step.logInit true,
       Event.call Step.setGlobalTracer true, Event.log Severity.info "app starting...",
       Event.call Step.newRegistry true, Event.call Step.generateInstanceID true,
       Event.call Step.register true, Event.call Step.goHeartbeat true,
       Event.call Step.grpcNewServer true, Event.call Step.netListen true,
       Event.call Step.newRabbitMQ true, Event.call Step.rmqBuild false,
       Event.log Severity.error "Failed to build queue/exchange",
       Event.log Severity.info "gRPC server listening on port: ",
       Event.call Step.newOrderService true, Event.call Step.newGrpcHandler true,
       Event.call Step.serve o.serveOk] ++ rest := by
  rw [main_eq]
  simp only [h1, h2, h3, h4, h5, h6]
  cases o.serveOk <;> simp [stepsOf, bootOrder]

/-- Instance of C3 at the run in which only topology provisioning fails. -/
theorem build_failure_is_not_fatal_witness :
    buildFails.buildOk = false ∧
    Event.log Severity.error "Failed to build queue/exchange" ∈ (main buildFails).trace ∧
    Event.call Step.serve true ∈ (main buildFails).trace :=
  ⟨rfl, (build_failure_is_not_fatal buildFails rfl rfl rfl rfl rfl rfl).1,
   (build_failure_is_not_fatal buildFails rfl rfl rfl rfl rfl rfl).2.1⟩

/-! ## The heartbeat loop -/

/-- One cycle of the loop leaves the goroutine running. -/
theorem heartbeatBody_running (ok : Bool) (g : Goroutine) :
    (heartbeatBody ok g).running = g.running := by
  cases ok <;>
    simp [heartbeatBody, Goroutine.healthCheck, Goroutine.log, Goroutine.sleep, Severity.exits]

/-- The events one cycle of the loop adds to the trace. -/
theorem heartbeatBody_trace (ok : Bool) (g : Goroutine) :
    (heartbeatBody ok g).trace =
      g.trace ++
        (HbEvent.healthCheck ok ::
          ((if ok then [] else [HbEvent.log Severity.error "Failed to health check"]) ++
            [HbEvent.sleep 1000000000])) := by
  cases ok <;>
    simp [heartbeatBody, Goroutine.healthCheck, Goroutine.log, Goroutine.sleep, timeSecond]

/-- The loop run from any running state: it is still running afterwards and
has added the events of one cycle per `HealthCheck` result. -/
theorem heartbeatLoop_spec (outcomes : List Bool) :
    ∀ g : Goroutine, g.running = true →
      (heartbeatLoop outcomes g).running = true ∧
      (heartbeatLoop outcomes g).trace =
        g.trace ++
          outcomes.flatMap (fun ok =>
            HbEvent.healthCheck ok ::
              ((if ok then [] else [HbEvent.log Severity.error "Failed to health check"]) ++
                [HbEvent.sleep 1000000000])) := by
  induction outcomes with
  | nil => intro g hg; simp [heartbeatLoop, hg]
  | cons ok rest ih =>
    intro g hg
    have hb : (heartbeatBody ok g).running = true := by rw [heartbeatBody_running, hg]
    obtain ⟨h1, h2⟩ := ih (heartbeatBody ok g) hb
    simp only [heartbeatLoop, hg, if_true]
    refine ⟨h1, ?_⟩
    rw [h2, heartbeatBody_trace, List.flatMap_cons, List.append_assoc]

/-- Counting `HealthCheck` calls distributes over concatenation. -/
theorem healthCheckCalls_append (a b : List HbEvent) :
    healthCheckCalls (a ++ b) = healthCheckCalls a + healthCheckCalls b := by
  induction a with
  | nil => simp [healthCheckCalls]
  | cons e t ih => cases e <;> simp [healthCheckCalls, ih]; omega

/-- Collecting sleeps distributes over concatenation. -/
theorem sleepsOf_append (a b : List HbEvent) :
    sleepsOf (a ++ b) = sleepsOf a ++ sleepsOf b := by
  induction a with
  | nil => simp [sleepsOf]
  | cons e t ih => cases e <;> simp [sleepsOf, ih]

/-- Collecting log entries distributes over concatenation. -/
theorem hbLogsOf_append (a b : List HbEvent) :
    hbLogsOf (a ++ b) = hbLogsOf a ++ hbLogsOf b := by
  induction a with
  | nil => simp [hbLogsOf]
  | cons e t ih => cases e <;> simp [hbLogsOf, ih]

/-- One `HealthCheck` call per cycle. -/
theorem healthCheckCalls_cycles (outcomes : List Bool) :
    healthCheckCalls
      (outcomes.flatMap (fun ok =>
        HbEvent.healthCheck ok ::
          ((if ok then [] else [HbEvent.log Severity.error "Failed to health check"]) ++
            [HbEvent.sleep 1000000000]))) = outcomes.length := by
  induction outcomes with
  | nil => rfl
  | cons ok rest ih =>
    rw [List.flatMap_cons, healthCheckCalls_append, ih]
    cases ok <;> simp [healthCheckCalls] <;> omega

/-- One sleep of 1000000000 ns per cycle. -/
theorem sleepsOf_cycles (outcomes : List Bool) :
    sleepsOf
      (outcomes.flatMap (fun ok =>
        HbEvent.healthCheck ok ::
          ((if ok then [] else [HbEvent.log Severity.error "Failed to health check"]) ++
            [HbEvent.sleep 1000000000]))) = List.replicate outcomes.length 1000000000 := by
  induction outcomes with
  | nil => rfl
  | cons ok rest ih =>
    rw [List.flatMap_cons, sleepsOf_append, ih]
    cases ok <;> simp [sleepsOf, List.replicate_succ]

/-- One error-severity log entry per failed cycle, and no other entry. -/
theorem hbLogsOf_cycles (outcomes : List Bool) :
    hbLogsOf
      (outcomes.flatMap (fun ok =>
        HbEvent.healthCheck ok ::
          ((if ok then [] else [HbEvent.log Severity.error "Failed to health check"]) ++
            [HbEvent.sleep 1000000000]))) =
      List.replicate (outcomes.count false) (Severity.error, "Failed to health check") := by
  induction outcomes with
  | nil => rfl
  | cons ok rest ih =>
    rw [List.flatMap_cons, hbLogsOf_append, ih]
    cases ok <;> simp [hbLogsOf, List.replicate_succ]

/-- C6: the heartbeat loop never stops by itself.  Whatever the results of the
`HealthCheck` calls (any number of them failures), after `n` cycles the
goroutine is still running, it has made exactly `n` `HealthCheck` calls, each
followed by one `time.Sleep` of 1000000000 ns that does not depend on the
result, and each failed call adds exactly one error-severity log entry. -/
theorem heartbeat_never_stops (outcomes : List Bool) :
    (heartbeatLoop outcomes Goroutine.start).running = true ∧
    (heartbeatLoop outcomes Goroutine.start).trace =
      outcomes.flatMap (fun ok =>
        HbEvent.healthCheck ok ::
          ((if ok then [] else [HbEvent.log Severity.error "Failed to health check"]) ++
            [HbEvent.sleep 1000000000])) ∧
    healthCheckCalls (heartbeatLoop outcomes Goroutine.start).trace = outcomes.length ∧
    sleepsOf (heartbeatLoop outcomes Goroutine.start).trace =
      List.replicate outcomes.length 1000000000 ∧
    hbLogsOf (heartbeatLoop outcomes Goroutine.start).trace =
      List.replicate (outcomes.count false) (Severity.error, "Failed to health check") := by
  obtain ⟨h1, h2⟩ := heartbeatLoop_spec outcomes Goroutine.start rfl
  rw [show Goroutine.start.trace = [] from rfl, List.nil_append] at h2
  refine ⟨h1, h2, ?_, ?_, ?_⟩
  · rw [h2, healthCheckCalls_cycles]
  · rw [h2, sleepsOf_cycles]
  · rw [h2, hbLogsOf_cycles]

/-! ## Normal shutdown -/

/-- C4 (as stated, refuted): in the run in which every call succeeds and
`grpcServer.Serve` returns without error, the deferred calls do not run in the
order Deregister, Close, Sync. -/
theorem shutdown_order_not_deregister_first :
    Event.call Step.serve true ∈ (main allOk).trace ∧
    (main allOk).exit = Exit.returned ∧
    releasesOf (main allOk).trace ≠
      [Release.deregister, Release.listenerClose, Release.zapSync] := by
  decide

/-- C4 (amended): in every run in which `grpcServer.Serve` returns without
error, `main` returns and, right after the `Serve` call, the three deferred
calls are all executed, in the order `listener.Close`, `registry.Deregister`,
`zap.L().Sync` (last deferred first). -/
theorem normal_shutdown_release_order (o : Outcomes)
    (h : Event.call Step.serve true ∈ (main o).trace) :
    (main o).exit = Exit.returned ∧
    releasesOf (main o).trace =
      [Release.listenerClose, Release.deregister, Release.zapSync] ∧
    ∃ before, (main o).trace =
      before ++
        [Event.call Step.serve true,
         Event.release Release.listenerClose o.closeOk,
         Event.release Release.deregister o.deregisterOk,
         Event.release Release.zapSync o.syncOk] := by
  rw [main_of_serve_return o h]
  refine ⟨rfl, ?_, ?_⟩
  · cases o.buildOk <;> simp [releasesOf]
  · exact ⟨_, (List.append_assoc _
      [Event.log Severity.info "gRPC server listening on port: ",
       Event.call Step.newOrderService true, Event.call Step.newGrpcHandler true]
      [Event.call Step.serve true,
       Event.release Release.listenerClose o.closeOk,
       Event.release Release.deregister o.deregisterOk,
       Event.release Release.zapSync o.syncOk]).symm⟩

/-- Instance of the amended C4 at the run in which every call succeeds. -/
theorem normal_shutdown_release_order_witness :
    Event.call Step.serve true ∈ (main allOk).trace ∧
    releasesOf (main allOk).trace =
      [Release.listenerClose, Release.deregister, Release.zapSync] :=
  ⟨by decide, (normal_shutdown_release_order allOk (by decide)).2.1⟩

/-! ## Teardown ledger -/

/-- C5 (as stated, refuted): in the run in which every call succeeds, five
resources are acquired and only three are released; the released sequence is
not the reverse of the acquired one (the tracer provider and the broker client
are missing from it). -/
theorem teardown_not_reverse_of_all_acquired :
    (main allOk).exit = Exit.returned ∧
    acquiredOf (main allOk).trace =
      [Resource.logger, Resource.tracerProvider, Resource.registration,
       Resource.listener, Resource.brokerClient] ∧
    releasedOf (main allOk).trace =
      [Resource.listener, Resource.registration, Resource.logger] ∧
    releasedOf (main allOk).trace ≠ (acquiredOf (main allOk).trace).reverse := by
  decide

/-- C5 (amended): on every exit path on which deferred calls run (normal
return, or panic), the released resources are exactly the acquired resources
that have a deferred release in `main` (logger, registration, listener), each
once, in the reverse of their acquisition order; the tracer provider, although
acquired, and the broker client are not released.  On normal return all five
resources were acquired and the releases are listener, registration, logger,
in that order; on panic the logger alone is released. -/
theorem deferred_releases_reverse_acquisition (o : Outcomes)
    (h : (main o).exit ≠ Exit.osExit) :
    releasedOf (main o).trace =
      ((acquiredOf (main o).trace).filter Resource.hasRelease).reverse ∧
    (releasedOf (main o).trace).Nodup ∧
    (Resource.tracerProvider ∈ acquiredOf (main o).trace ∧
      Resource.tracerProvider ∉ releasedOf (main o).trace) ∧
    Resource.brokerClient ∉ releasedOf (main o).trace ∧
    ((main o).exit = Exit.returned →
      acquiredOf (main o).trace =
        [Resource.logger, Resource.tracerProvider, Resource.registration,
         Resource.listener, Resource.brokerClient] ∧
      releasedOf (main o).trace =
        [Resource.listener, Resource.registration, Resource.logger]) ∧
    ((main o).exit = Exit.panicked →
      releasedOf (main o).trace = [Resource.logger]) := by
  rw [main_eq] at h ⊢
  split_ifs at h ⊢ <;>
    simp_all [releasedOf, releasesOf, acquiredOf, Step.acquires, Release.resource,
      Resource.hasRelease]

/-- Instance of the amended C5 at two runs.  In the run that returns normally
(with `listener.Close` failing) three resources are released, in the reverse
of the order in which they were acquired, while five were acquired; in the run
in which registration fails (exit by panic) the logger alone is released. -/
theorem deferred_releases_reverse_acquisition_witness :
    ((main closeFails).exit ≠ Exit.osExit ∧
      releasedOf (main closeFails).trace =
        ((acquiredOf (main closeFails).trace).filter Resource.hasRelease).reverse ∧
      (releasedOf (main closeFails).trace).Nodup ∧
      (acquiredOf (main closeFails).trace).filter Resource.hasRelease =
        [Resource.logger, Resource.registration, Resource.listener] ∧
      releasedOf (main closeFails).trace =
        [Resource.listener, Resource.registration, Resource.logger]) ∧
    ((main registerFails).exit ≠ Exit.osExit ∧
      releasedOf (main registerFails).trace =
        ((acquiredOf (main registerFails).trace).filter Resource.hasRelease).reverse ∧
      releasedOf (main registerFails).trace = [Resource.logger]) :=
  ⟨⟨by decide,
    (deferred_releases_reverse_acquisition closeFails (by decide)).1,
    (deferred_releases_reverse_acquisition closeFails (by decide)).2.1,
    by decide,
    ((deferred_releases_reverse_acquisition closeFails (by decide)).2.2.2.2.1
      (by decide)).2⟩,
   ⟨by decide,
    (deferred_releases_reverse_acquisition registerFails (by decide)).1,
    (deferred_releases_reverse_acquisition registerFails (by decide)).2.2.2.2.2
      (by decide)⟩⟩

/-! ## Fatal steps -/

/-- C7: for each of `tracer.SetGlobalTracer`, `consul.NewRegistry`,
`registry.Register` and `net.Listen`: in every run in which that call returns
an error, `main` does not return normally, the calls made are exactly the call
sites up to and including the failed one (no later call is made), and
`grpcServer.Serve` is not called. -/
theorem fatal_step_failure_stops_bootstrap (o : Outcomes) (s : Step)
    (hs : s = Step.setGlobalTracer ∨ s = Step.newRegistry ∨ s = Step.register ∨
      s = Step.netListen)
    (h : Event.call s false ∈ (main o).trace) :
    ((main o).exit = Exit.osExit ∨ (main o).exit = Exit.panicked) ∧
    stepsOf (main o).trace = bootOrder.takeWhile (fun x => x != s) ++ [s] ∧
    Step.serve ∉ stepsOf (main o).trace := by
  rcases hs with rfl | rfl | rfl | rfl
  · rw [main_of_tracer_failure o h]; decide
  · rw [main_of_registry_failure o h]; simp [stepsOf]; rfl
  · rw [main_of_register_failure o h]; simp [stepsOf]; rfl
  · rw [main_of_listen_failure o h]; decide

/-- Instance of C7 at the run in which the listener bind fails. -/
theorem fatal_step_failure_stops_bootstrap_witness :
    Event.call Step.netListen false ∈ (main listenFails).trace ∧
    Step.serve ∉ stepsOf (main listenFails).trace :=
  ⟨by decide,
   (fatal_step_failure_stops_bootstrap listenFails Step.netListen (by decide) (by decide)).2.2⟩

/-! ## Errors of deferred calls -/

/-- C8 (as stated, refuted): in the run in which every call of the main line
succeeds and `listener.Close` returns an error during teardown, no log entry is
written during teardown, and the log entries of the run are those of the run
in which `listener.Close` succeeds. -/
theorem release_error_not_logged :
    (main closeFails).exit = Exit.returned ∧
    Event.release Release.listenerClose false ∈ (main closeFails).trace ∧
    logsOf (teardownOf (main closeFails).trace) = [] ∧
    logsOf (main closeFails).trace = logsOf (main allOk).trace := by
  decide

/-- C8 (amended): in every run that returns normally (teardown with all three
releases registered), teardown consists of the three deferred calls and
nothing else: each is executed whatever the earlier ones returned, and the
error a deferred call returns is discarded without a log entry. -/
theorem release_errors_discarded_all_run (o : Outcomes)
    (h : (main o).exit = Exit.returned) :
    teardownOf (main o).trace =
      [Event.release Release.listenerClose o.closeOk,
       Event.release Release.deregister o.deregisterOk,
       Event.release Release.zapSync o.syncOk] ∧
    logsOf (teardownOf (main o).trace) = [] := by
  rw [main_of_serve_return o ((returned_iff_serve_ok o).1 h)]
  cases o.buildOk <;> simp [teardownOf, List.dropWhile, Event.isRelease, logsOf]

/-- Instance of the amended C8 at the run in which `listener.Close` fails. -/
theorem release_errors_discarded_all_run_witness :
    (main closeFails).exit = Exit.returned ∧
    teardownOf (main closeFails).trace =
      [Event.release Release.listenerClose false,
       Event.release Release.deregister true,
       Event.release Release.zapSync true] :=
  ⟨by decide, (release_errors_discarded_all_run closeFails (by decide)).1⟩

/-! ## Order of the bootstrap calls -/

/-- C9: when the five calls whose failure ends the run succeed, the calls of
the main line are exactly the call sites of `main` in source order, each
returned before the next is made, with `grpcServer.Serve` last; the order
given in the specification is a subsequence of it; and the calls made are the
same whether `rmq.Build` fails or succeeds. -/
theorem bootstrap_order (o : Outcomes)
    (h1 : o.tracerOk = true) (h2 : o.registryOk = true) (h3 : o.registerOk = true)
    (h4 : o.listenOk = true) (h5 : o.rabbitOk = true) :
    stepsOf (main o).trace = bootOrder ∧
    List.Sublist
      [Step.readConfig, Step.setGlobalTracer, Step.newRegistry, Step.register,
       Step.goHeartbeat, Step.netListen, Step.newRabbitMQ, Step.rmqBuild,
       Step.newOrderService, Step.newGrpcHandler, Step.serve]
      (stepsOf (main o).trace) ∧
    (stepsOf (main o).trace).getLast? = some Step.serve ∧
    stepsOf (main { o with buildOk := false }).trace =
      stepsOf (main { o with buildOk := true }).trace := by
  have key : ∀ p : Outcomes, p.tracerOk = true → p.registryOk = true →
      p.registerOk = true → p.listenOk = true → p.rabbitOk = true →
      stepsOf (main p).trace = bootOrder := by
    intro p q1 q2 q3 q4 q5
    rw [main_eq]
    simp only [q1, q2, q3, q4, q5]
    cases p.buildOk <;> cases p.serveOk <;> simp [stepsOf, bootOrder]
  refine ⟨key o h1 h2 h3 h4 h5, ?_, ?_, ?_⟩
  · rw [key o h1 h2 h3 h4 h5]; decide
  · rw [key o h1 h2 h3 h4 h5]; decide
  · have e1 := key { o with buildOk := false } h1 h2 h3 h4 h5
    have e2 := key { o with buildOk := true } h1 h2 h3 h4 h5
    rw [e1, e2]

/-- Instance of C9 at the run in which every call succeeds. -/
theorem bootstrap_order_witness :
    allOk.tracerOk = true ∧ stepsOf (main allOk).trace = bootOrder :=
  ⟨rfl, (bootstrap_order allOk rfl rfl rfl rfl rfl).1⟩

/-! ## Broker-client construction failure -/

/-- C10: in every run in which `rabbitmq.NewRabbitMQ` returns an error, the
process exits at that call (`zap.L().Fatal`), after registration and listener
bind have succeeded; `rmq.Build` and `grpcServer.Serve` are not called. -/
theorem rabbit_failure_is_fatal (o : Outcomes)
    (h : Event.call Step.newRabbitMQ false ∈ (main o).trace) :
    (main o).exit = Exit.osExit ∧
    Event.call Step.register true ∈ (main o).trace ∧
    Event.call Step.netListen true ∈ (main o).trace ∧
    (stepsOf (main o).trace).getLast? = some Step.newRabbitMQ ∧
    Step.rmqBuild ∉ stepsOf (main o).trace ∧
    Step.serve ∉ stepsOf (main o).trace := by
  rw [main_of_rabbit_failure o h]
  decide

/-- Instance of C10 at the run in which broker-client construction fails. -/
theorem rabbit_failure_is_fatal_witness :
    Event.call Step.newRabbitMQ false ∈ (main rabbitFails).trace ∧
    Step.rmqBuild ∉ stepsOf (main rabbitFails).trace ∧
    Step.serve ∉ stepsOf (main rabbitFails).trace :=
  ⟨by decide, (rabbit_failure_is_fatal rabbitFails (by decide)).2.2.2.2.1,
   (rabbit_failure_is_fatal rabbitFails (by decide)).2.2.2.2.2⟩

end OrderService
